import Mathlib

/-!
# Verification of the screenshot-site request lifecycle

Shallow embedding of the `yoshi70001/screenshot-site` repository:

* `src/index.js` — the express route `POST /:url` (`postHandler` below);
* `src/unnamed/part_001` — the puppeteer `Bot` class (constructor,
  `startBrowser`, `setPage`, `takeScreenshot`, `closeBrowser`, the private
  resource-blocking helpers);
* `src/unnamed/part_002` — the playwright `Bot` port (behaviourally the same
  sequencing; where it differs in a constant the constant is embedded
  separately);
* `src/unnamed/part_000` — the client page's `getScreenshot` scheme handling.

External library calls (puppeteer `launch`, `newPage`, `goto`, `screenshot`,
`browser.close`, …) are modelled as oracles: each operation takes an
environment record saying which external call throws, and the screenshot
oracle supplies the raw image bytes.  The standard base64 codec implemented by
the runtime (`atob` / `btoa` and puppeteer's `encoding: "base64"` screenshot
output) is embedded as an executable RFC-4648 codec.
-/

/-! ## Base64 (models the runtime's `atob`/`btoa` and the external encoder) -/

/-- The 64 characters of the standard base64 alphabet, in order. -/
def b64AlphaChars : List Char :=
  "ABCDEFGHIJKLMNOPQRSTUVWXYZabcdefghijklmnopqrstuvwxyz0123456789+/".data

/-- Index into the base64 alphabet (index taken mod 64). -/
def b64Char (n : Nat) : Char :=
  b64AlphaChars.getD (n % 64) 'A'

/-- Encode a byte list to base64 characters, 3 bytes to 4 chars, with
`=` padding, as the external encoder does. -/
def b64EncodeChunks : List Nat → List Char
  | [] => []
  | [b1] =>
      [b64Char (b1 / 4), b64Char ((b1 % 4) * 16), '=', '=']
  | [b1, b2] =>
      [b64Char (b1 / 4), b64Char ((b1 % 4) * 16 + b2 / 16),
       b64Char ((b2 % 16) * 4), '=']
  | b1 :: b2 :: b3 :: rest =>
      b64Char (b1 / 4) :: b64Char ((b1 % 4) * 16 + b2 / 16) ::
      b64Char ((b2 % 16) * 4 + b3 / 64) :: b64Char (b3 % 64) ::
      b64EncodeChunks rest

/-- Base64-encode a byte list to a string. -/
def base64EncodeBytes (bs : List Nat) : String :=
  String.mk (b64EncodeChunks bs)

/-- Model of the runtime global `btoa`: base64-encode a (latin-1) string.
The inputs produced by this repository are ASCII URLs, for which the
byte-per-character reading below is exact. -/
def btoa (s : String) : String :=
  base64EncodeBytes (s.data.map (fun c => c.toNat % 256))

/-- The 6-bit value of a base64 alphabet character, `none` for any other
character. -/
def b64Value (c : Char) : Option Nat :=
  let i := b64AlphaChars.indexOf c
  if i < 64 then some i else none

/-- ASCII whitespace, which forgiving-base64 decoding strips. -/
def isB64Whitespace (c : Char) : Bool :=
  c == ' ' || c == '\t' || c == '\n' || c == '\x0c' || c == '\r'

/-- Strip up to two trailing `=` padding characters. -/
def b64StripPad (cs : List Char) : List Char :=
  match cs.reverse with
  | '=' :: '=' :: rest => rest.reverse
  | '=' :: rest => rest.reverse
  | _ => cs

/-- Decode 6-bit groups back to (latin-1) characters. -/
def b64DecodeVals : List Nat → List Char
  | v1 :: v2 :: v3 :: v4 :: rest =>
      Char.ofNat (v1 * 4 + v2 / 16) :: Char.ofNat ((v2 % 16) * 16 + v3 / 4) ::
      Char.ofNat ((v3 % 4) * 64 + v4) :: b64DecodeVals rest
  | [v1, v2] => [Char.ofNat (v1 * 4 + v2 / 16)]
  | [v1, v2, v3] =>
      [Char.ofNat (v1 * 4 + v2 / 16), Char.ofNat ((v2 % 16) * 16 + v3 / 4)]
  | _ => []

/-- Model of the runtime global `atob` (WHATWG forgiving-base64 decode):
strips ASCII whitespace, strips padding when the length is a multiple of 4,
rejects a remaining length of 1 mod 4 and any character outside the base64
alphabet; `none` models the `InvalidCharacterError` the runtime throws. -/
def atob (s : String) : Option String :=
  let cs := s.data.filter (fun c => !isB64Whitespace c)
  let cs := if cs.length % 4 == 0 then b64StripPad cs else cs
  if cs.length % 4 == 1 then none
  else if cs.any (fun c => (b64Value c).isNone) then none
  else some (String.mk (b64DecodeVals (cs.map (fun c => (b64Value c).getD 0))))

/-! ## Bot options and constructor (part_001 lines 3–8 and 49–63) -/

/-- `DEFAULT_USER_AGENT` from part_001 / part_002. -/
def DEFAULT_USER_AGENT : String :=
  "Mozilla/5.0 (compatible; Googlebot/2.1; +http://www.google.com/bot.html)"

/-- A viewport as configured by the Bot. -/
structure Viewport where
  width : Nat
  height : Nat
  deviceScaleFactor : Nat
deriving DecidableEq, Repr

/-- `DEFAULT_VIEWPORT` from part_001 (part_002 omits `deviceScaleFactor`). -/
def DEFAULT_VIEWPORT : Viewport := ⟨1920, 1080, 1⟩

/-- `DEFAULT_GOTO_TIMEOUT` from part_001 / part_002. -/
def DEFAULT_GOTO_TIMEOUT : Nat := 30000

/-- `DEFAULT_NAVIGATION_WAIT` from part_001 (puppeteer). -/
def DEFAULT_NAVIGATION_WAIT : String := "networkidle2"

/-- `DEFAULT_NAVIGATION_WAIT` from part_002 (playwright). -/
def DEFAULT_NAVIGATION_WAIT_PLAYWRIGHT : String := "networkidle"

/-- A JavaScript object field that may be missing, explicitly `undefined`,
or a boolean value.  The distinction between `absent` and `undef` matters
for object spread. -/
inductive JSField
  | absent
  | undef
  | val (b : Bool)
deriving DecidableEq, Repr, Fintype

/-- The caller-supplied `blockResources` object of `BotOptions`. -/
structure BlockResourcesInput where
  images : JSField
  css : JSField
  fonts : JSField
deriving DecidableEq, Repr, Fintype

/-- Caller-supplied `BotOptions` (the fields the embedded operations
consume).  `none` stands for an absent or `undefined` field. -/
structure BotOptionsIn where
  userAgent : Option String
  viewport : Option Viewport
  optimizeLoad : Option Bool
  blockResources : Option BlockResourcesInput
deriving Repr

/-- `new Bot()` with no argument, as the route handler constructs it. -/
def emptyBotOptions : BotOptionsIn := ⟨none, none, none, none⟩

/-- The merged `blockResources` record stored in `this.#options`.
`none` is a field whose merged value is JavaScript `undefined`. -/
structure BlockSettings where
  images : Option Bool
  css : Option Bool
  fonts : Option Bool
deriving DecidableEq, Repr, Fintype

/-- The merged options stored by the constructor. -/
structure BotConfig where
  userAgent : String
  viewport : Viewport
  optimizeLoad : Bool
  blockResources : BlockSettings
deriving DecidableEq, Repr

/-- The JavaScript value of a possibly-missing boolean field:
`undefined` (`none`) when missing or explicitly undefined. -/
def jsFieldValue (f : JSField) : Option Bool :=
  match f with
  | .val b => some b
  | _ => none

/-- `options.blockResources?.k` — optional chaining yields `undefined`
when the object itself is absent. -/
def jsGetOpt (o : Option BlockResourcesInput) (proj : BlockResourcesInput → JSField) :
    Option Bool :=
  match o with
  | none => none
  | some i => jsFieldValue (proj i)

/-- One field of the constructor's merge
`{ k: options.blockResources?.k ?? d, ..., ...options.blockResources }`:
the default-filled value is computed first, then the spread overwrites the
field with the caller's raw value whenever the key is present — even when
that value is `undefined`. -/
def mergeField (o : Option BlockResourcesInput) (proj : BlockResourcesInput → JSField)
    (d : Bool) : Option Bool :=
  let base := (jsGetOpt o proj).getD d
  match o with
  | none => some base
  | some i =>
    match proj i with
    | .absent => some base
    | .undef => none
    | .val b => some b

/-- The constructor's `blockResources` merge (part_001 lines 56–61,
part_002 lines 78–83), with defaults `images: true`, `css: false`,
`fonts: false`. -/
def mergeBlockResources (o : Option BlockResourcesInput) : BlockSettings :=
  { images := mergeField o (fun i => i.images) true
    css := mergeField o (fun i => i.css) false
    fonts := mergeField o (fun i => i.fonts) false }

/-- JavaScript `v || d` for a string option: the default is used when the
field is missing or the empty string (falsy). -/
def jsOrString (v : Option String) (d : String) : String :=
  match v with
  | none => d
  | some s => if s = "" then d else s

/-- The Bot constructor (part_001 lines 49–63): merge defaults with
user-provided options into `this.#options`. -/
def mkBotConfig (o : BotOptionsIn) : BotConfig :=
  { userAgent := jsOrString o.userAgent DEFAULT_USER_AGENT
    viewport := o.viewport.getD DEFAULT_VIEWPORT
    optimizeLoad := o.optimizeLoad.getD false
    blockResources := mergeBlockResources o.blockResources }

/-! ## Request interception (part_001 lines 148–178, part_002 179–204) -/

/-- Resource kinds the interception handler distinguishes (other kinds all
fall into the allowed branch; a few are named for concreteness). -/
inductive ResourceType
  | image
  | stylesheet
  | font
  | script
  | document
  | xhr
  | media
  | other
deriving DecidableEq, Repr, Fintype

/-- What the interception handler does with a request. -/
inductive InterceptAction
  | abort
  | cont
deriving DecidableEq, Repr

/-- JavaScript truthiness of a merged boolean option (an `undefined` merged
value is falsy). -/
def truthy (v : Option Bool) : Bool :=
  v.getD false

/-- The `shouldBlock` condition of `#handleRequestInterception` /
`#handleRequestRouting`. -/
def shouldBlock (bs : BlockSettings) (rt : ResourceType) : Bool :=
  (truthy bs.images && rt == .image) ||
  (truthy bs.css && rt == .stylesheet) ||
  (truthy bs.fonts && rt == .font)

/-- `Bot.#handleRequestInterception`: abort the request when `shouldBlock`,
otherwise let it continue. -/
def handleRequestInterception (bs : BlockSettings) (rt : ResourceType) :
    InterceptAction :=
  if shouldBlock bs rt then .abort else .cont

/-- The resource kinds the merged settings actually block (the spec's
`blockedResourceKinds`, restricted to enabled flags). -/
def enabledBlockedKinds (bs : BlockSettings) : List ResourceType :=
  (if truthy bs.images then [ResourceType.image] else []) ++
  (if truthy bs.css then [ResourceType.stylesheet] else []) ++
  (if truthy bs.fonts then [ResourceType.font] else [])

/-! ## Bot session state and operations -/

/-- The mutable private fields of a `Bot`: whether `this.#browser` and
`this.#page` are non-null, and `this.#isInterceptionEnabled`. -/
structure BotState where
  browser : Bool
  page : Bool
  interception : Bool
deriving DecidableEq, Repr, Fintype

/-- A freshly constructed (or fully torn-down) Bot: all handles null,
interception disabled. -/
def initialBotState : BotState := ⟨false, false, false⟩

/-- Observable side effects of the embedded operations, in program order. -/
inductive Effect
  | warn (msg : String)
  | log (msg : String)
  | logError (msg : String)
  | launch
  | newPage
  | onDisconnected
  | applyUserAgent (ua : String)
  | applyViewport (w h : Nat)
  | setRequestInterception (enabled : Bool)
  | onRequest
  | offRequest
  | goto (url : String)
  | waitNetworkIdle
  | screenshot
  | browserClose
deriving DecidableEq, Repr

/-- The result of running one Bot operation: the state it leaves behind,
its effects, the error it threw (if any), and its return value (if any). -/
structure OpResult where
  state : BotState
  effects : List Effect
  err : Option String
  value : Option String := none
deriving DecidableEq, Repr

/-- Which external calls fail during teardown. -/
structure CloseEnv where
  disableFails : Bool
  browserCloseFails : Bool
deriving DecidableEq, Repr, Fintype

/-- Which external calls fail during `startBrowser`.  `cleanupEnv` governs
the `closeBrowser` call made by the catch block. -/
structure StartEnv where
  launchFails : Bool
  newPageFails : Bool
  setUserAgentFails : Bool
  setViewportFails : Bool
  interceptionSetupFails : Bool
  cleanupEnv : CloseEnv
deriving DecidableEq, Repr, Fintype

/-- Which external calls fail during `setPage`. -/
structure NavEnv where
  gotoFails : Bool
  networkIdleFails : Bool
deriving DecidableEq, Repr

/-- The screenshot oracle: whether `page.screenshot` throws, and the raw
image bytes it would return. -/
structure CapEnv where
  screenshotFails : Bool
  bytes : List Nat
deriving DecidableEq, Repr

/-- `Bot.#disableResourceBlocking` (part_001 lines 125–141): a no-op unless
a page exists and interception is on; removes the listener and turns
interception off, resetting the flag even when the external call throws
(that error is caught and at most warned about). -/
def disableResourceBlocking (st : BotState) (env : CloseEnv) :
    BotState × List Effect :=
  if !st.page || !st.interception then (st, [])
  else if env.disableFails then
    ({ st with interception := false },
     [.offRequest, .setRequestInterception false,
      .warn "Error disabling request interception"])
  else
    ({ st with interception := false },
     [.offRequest, .setRequestInterception false,
      .log "Resource blocking disabled."])

/-- `Bot.#enableResourceBlocking` (part_001 lines 106–119): a no-op unless a
page exists and interception is off; on external failure the error is
caught and the flag left off. -/
def enableResourceBlocking (st : BotState) (fails : Bool) :
    BotState × List Effect :=
  if !st.page || st.interception then (st, [])
  else if fails then
    (st, [.setRequestInterception true,
          .logError "Failed to enable request interception"])
  else
    ({ st with interception := true },
     [.setRequestInterception true, .onRequest, .log "Resource blocking enabled."])

/-- `Bot.closeBrowser` (part_001 lines 250–277): disable any active
interception, then close the browser if present; the close error is logged
and swallowed and the `finally` clears all handles.  It never throws, so
`err` is always `none`. -/
def closeBrowser (st : BotState) (env : CloseEnv) : OpResult :=
  let step1 :=
    if st.interception then
      if st.page then disableResourceBlocking st env
      else ({ st with interception := false }, [])
    else (st, [])
  if step1.1.browser then
    let closeEffs :=
      if env.browserCloseFails then
        [Effect.browserClose, Effect.logError "Error closing browser"]
      else
        [Effect.browserClose, Effect.log "Browser closed successfully."]
    { state := ⟨false, false, false⟩
      effects := step1.2 ++ Effect.log "Closing browser..." :: closeEffs
      err := none }
  else
    { state := step1.1, effects := step1.2, err := none }

/-- `Bot.startBrowser` (part_001 lines 69–100): no-op with a warning when a
browser handle already exists; otherwise launch, open a page, register the
disconnect handler, apply user agent and viewport, and optionally enable
resource blocking.  Any failure is caught: `closeBrowser` runs and the
error is re-thrown. -/
def startBrowser (cfg : BotConfig) (st : BotState) (env : StartEnv) : OpResult :=
  if st.browser then
    { state := st, effects := [.warn "Browser already started."], err := none }
  else if env.launchFails then
    let c := closeBrowser st env.cleanupEnv
    { state := c.state
      effects := Effect.launch :: Effect.logError "Failed to start browser" :: c.effects
      err := some "launch failed" }
  else
    let st1 : BotState := { st with browser := true }
    if env.newPageFails then
      let c := closeBrowser st1 env.cleanupEnv
      { state := c.state
        effects := [Effect.launch, Effect.newPage,
                    Effect.logError "Failed to start browser"] ++ c.effects
        err := some "newPage failed" }
    else
      let st2 : BotState := { st1 with page := true }
      if env.setUserAgentFails then
        let c := closeBrowser st2 env.cleanupEnv
        { state := c.state
          effects := [Effect.launch, Effect.newPage, Effect.onDisconnected,
                      Effect.applyUserAgent cfg.userAgent,
                      Effect.logError "Failed to start browser"] ++ c.effects
          err := some "setUserAgent failed" }
      else if env.setViewportFails then
        let c := closeBrowser st2 env.cleanupEnv
        { state := c.state
          effects := [Effect.launch, Effect.newPage, Effect.onDisconnected,
                      Effect.applyUserAgent cfg.userAgent,
                      Effect.applyViewport cfg.viewport.width cfg.viewport.height,
                      Effect.logError "Failed to start browser"] ++ c.effects
          err := some "setViewport failed" }
      else
        let step3 :=
          if cfg.optimizeLoad then enableResourceBlocking st2 env.interceptionSetupFails
          else (st2, [])
        { state := step3.1
          effects := [Effect.launch, Effect.newPage, Effect.onDisconnected,
                      Effect.applyUserAgent cfg.userAgent,
                      Effect.applyViewport cfg.viewport.width cfg.viewport.height] ++
                     step3.2 ++ [Effect.log "Browser started successfully."]
          err := none }

/-- Caller-supplied `SetPageOptions` (the fields the route exercises). -/
structure SetPageOptions where
  waitUntil : Option String
  timeout : Option Nat
  waitForNetworkIdle : Bool
deriving DecidableEq, Repr

/-- `setPage` called with no options, as the route handler does. -/
def defaultSetPageOptions : SetPageOptions := ⟨none, none, false⟩

/-- The `gotoOptions` object `setPage` builds. -/
structure GotoOptions where
  waitUntil : String
  timeout : Nat
deriving DecidableEq, Repr

/-- JavaScript `v || d` for a numeric option (0 is falsy). -/
def jsOrNat (v : Option Nat) (d : Nat) : Nat :=
  match v with
  | none => d
  | some 0 => d
  | some n => n

/-- `setPage`'s goto options: `waitUntil: options.waitUntil || DEFAULT_NAVIGATION_WAIT,
timeout: options.timeout || DEFAULT_GOTO_TIMEOUT` (part_001 lines 191–195). -/
def mkGotoOptions (o : SetPageOptions) : GotoOptions :=
  { waitUntil := jsOrString o.waitUntil DEFAULT_NAVIGATION_WAIT
    timeout := jsOrNat o.timeout DEFAULT_GOTO_TIMEOUT }

/-- `Bot.setPage` (part_001 lines 186–217): throw immediately when no page
handle exists (no navigation effect at all); otherwise `goto`, optionally
wait for network idle, re-throwing any navigation error.  The handles are
never modified. -/
def setPage (st : BotState) (url : String) (o : SetPageOptions) (env : NavEnv) :
    OpResult :=
  if !st.page then
    { state := st, effects := [],
      err := some "Browser not started or page not available." }
  else if env.gotoFails then
    { state := st, effects := [.goto url, .logError "Failed to navigate"],
      err := some "navigation failed" }
  else if o.waitForNetworkIdle then
    if env.networkIdleFails then
      { state := st
        effects := [.goto url, .waitNetworkIdle, .logError "Failed to navigate"]
        err := some "network idle wait failed" }
    else
      { state := st, effects := [.goto url, .waitNetworkIdle], err := none }
  else
    { state := st, effects := [.goto url], err := none }

/-- Caller-supplied `ScreenshotOptions` (the fields the route exercises). -/
structure ScreenshotOptionsIn where
  fullPage : Option Bool
  type : Option String
  quality : Option Nat
deriving DecidableEq, Repr

/-- `takeScreenshot` called with no options, as the route handler does. -/
def defaultScreenshotOptions : ScreenshotOptionsIn := ⟨none, none, none⟩

/-- The screenshot type after defaulting: `options.type || "png"`. -/
def screenshotType (o : ScreenshotOptionsIn) : String :=
  jsOrString o.type "png"

/-- `Bot.takeScreenshot` (part_001 lines 225–245): throw immediately when no
page handle exists (no capture effect at all); otherwise take the
screenshot (the external engine returns the image, embedded here as the
base64 encoding of the oracle's bytes) and return the data URI
`data:image/<type>;base64,<data>`.  The handles are never modified. -/
def takeScreenshot (st : BotState) (o : ScreenshotOptionsIn) (env : CapEnv) :
    OpResult :=
  if !st.page then
    { state := st, effects := [],
      err := some "Browser not started or page not available." }
  else if env.screenshotFails then
    { state := st, effects := [.screenshot, .logError "Failed to take screenshot"],
      err := some "screenshot failed" }
  else
    { state := st, effects := [.screenshot], err := none
      value := some ("data:image/" ++ screenshotType o ++ ";base64," ++
                     base64EncodeBytes env.bytes) }

/-! ## Session traces (for the lifecycle invariant) -/

/-- One externally triggered step of a Bot's life. -/
inductive BotEvent
  | start (env : StartEnv)
  | navigate (url : String) (env : NavEnv)
  | capture (env : CapEnv)
  | stop (env : CloseEnv)
  | disconnected
deriving Repr

/-- The state transition of one event.  `disconnected` is the browser's
`"disconnected"` callback (part_001 lines 79–84), registered only while a
browser handle exists: it nulls both handles and resets the flag. -/
def botStep (cfg : BotConfig) (st : BotState) (e : BotEvent) : BotState :=
  match e with
  | .start env => (startBrowser cfg st env).state
  | .navigate url env => (setPage st url defaultSetPageOptions env).state
  | .capture env => (takeScreenshot st defaultScreenshotOptions env).state
  | .stop env => (closeBrowser st env).state
  | .disconnected => if st.browser then initialBotState else st

/-- Run a freshly constructed Bot through a list of events. -/
def runBot (cfg : BotConfig) (es : List BotEvent) : BotState :=
  es.foldl (botStep cfg) initialBotState

/-- `startBrowser` succeeds from a stopped session exactly when none of the
launch / page-creation / settings steps fails (an interception-setup
failure is caught internally and does not fail the start). -/
def startSucceeds (env : StartEnv) : Bool :=
  !env.launchFails && !env.newPageFails && !env.setUserAgentFails &&
  !env.setViewportFails

/-- Modelled from the spec, one step: a successful `start` opens the
session, `stop` and a disconnect close it, navigation and capture leave it
as it is. -/
def sessionOpenStep (opened : Bool) (e : BotEvent) : Bool :=
  match e with
  | .start env => if !opened && startSucceeds env then true else opened
  | .stop _ => false
  | .disconnected => false
  | _ => opened

/-- Modelled from the spec: "a BrowserSession's page handle is non-null only
between a successful `start` and a subsequent `stop`" (or unexpected
disconnect) — the session is open after a trace iff a successful start has
happened with no stop or disconnect after it. -/
def sessionOpenSpec (es : List BotEvent) : Bool :=
  es.foldl sessionOpenStep false

/-! ## The express route `POST /:url` (src/index.js lines 16–29) -/

/-- The JSON response body: `{status:true, content}` or `{status:false}`
(the failure shape has no content field, which the constructor shapes
make structural). -/
inductive Response
  | success (content : String)
  | failure
deriving DecidableEq, Repr

/-- The external-world outcomes one request can encounter. -/
structure RouterEnv where
  start : StartEnv
  nav : NavEnv
  shot : CapEnv
  close : CloseEnv
deriving Repr

/-- What one request leaves behind: the response sent, the final state of
the Bot created for the request, and the accumulated effects. -/
structure HandlerResult where
  response : Response
  botState : BotState
  effects : List Effect
deriving DecidableEq, Repr

/-- The `app.post("/:url")` handler (src/index.js lines 16–29), translated
statement by statement: guard the parameter, construct a Bot with no
options, `startBrowser`, evaluate `atob(req.params.url)` (which throws on
malformed base64), `setPage`, `takeScreenshot`, `closeBrowser`, respond
`{status:true, content}`; any thrown error lands in the catch block, which
only responds `{status:false}` — it does not call `closeBrowser`. -/
def postHandler (param : String) (env : RouterEnv) : HandlerResult :=
  if param = "" then
    { response := .failure, botState := initialBotState, effects := [] }
  else
    let cfg := mkBotConfig emptyBotOptions
    let s := startBrowser cfg initialBotState env.start
    match s.err with
    | some _ => { response := .failure, botState := s.state, effects := s.effects }
    | none =>
      match atob param with
      | none =>
        { response := .failure, botState := s.state, effects := s.effects }
      | some url =>
        let n := setPage s.state url defaultSetPageOptions env.nav
        match n.err with
        | some _ =>
          { response := .failure, botState := n.state
            effects := s.effects ++ n.effects }
        | none =>
          let t := takeScreenshot n.state defaultScreenshotOptions env.shot
          match t.err, t.value with
          | none, some content =>
            let c := closeBrowser t.state env.close
            { response := .success content, botState := c.state
              effects := s.effects ++ n.effects ++ t.effects ++ c.effects }
          | _, _ =>
            { response := .failure, botState := t.state
              effects := s.effects ++ n.effects ++ t.effects }

/-- The URLs passed to `page.goto` among a request's effects. -/
def gotoUrls (effs : List Effect) : List String :=
  effs.filterMap fun e =>
    match e with
    | .goto url => some url
    | _ => none

/-- An environment in which every external call succeeds; the screenshot
oracle returns the bytes `[1, 2, 3]`. -/
def envAllOk : RouterEnv :=
  { start := ⟨false, false, false, false, false, ⟨false, false⟩⟩
    nav := ⟨false, false⟩
    shot := ⟨false, [1, 2, 3]⟩
    close := ⟨false, false⟩ }

/-! ## Client page (src/unnamed/part_000, `getScreenshot` lines 343–351) -/

/-- JavaScript `String.prototype.startsWith`, as an executable check on the
character list. -/
def strStartsWith (s pre : String) : Bool :=
  pre.data.isPrefixOf s.data

/-- The URL the client page fetches a capture for: the scheme check and
`http://` prepending happen here, client-side, before base64 encoding. -/
def clientFetchUrl (urlWebsite : String) : String :=
  if !strStartsWith urlWebsite "http://" && !strStartsWith urlWebsite "https://" then
    "http://" ++ urlWebsite
  else urlWebsite

/-- The whole client-to-server round trip for one typed URL: encode the
(scheme-completed) URL with `btoa` and POST it to the route. -/
def clientCapture (urlWebsite : String) (env : RouterEnv) : HandlerResult :=
  postHandler (btoa (clientFetchUrl urlWebsite)) env

/-! ## The data-URI shape of a successful response -/

/-- Strip an expected character-list head, returning the tail. -/
def stripHead : List Char → List Char → Option (List Char)
  | [], rest => some rest
  | _, [] => none
  | p :: ps, c :: cs => if p == c then stripHead ps cs else none

/-- One character of the base64 payload of a data URI
(the `[A-Za-z0-9+/=]` class). -/
def isDataUriTailChar (c : Char) : Bool :=
  b64AlphaChars.contains c || c == '='

/-- After an expected head, a non-empty run of `[A-Za-z0-9+/=]` characters
and nothing else. -/
def b64PayloadAfter (p cs : List Char) : Bool :=
  match stripHead p cs with
  | some rest => !rest.isEmpty && rest.all isDataUriTailChar
  | none => false

/-- `^data:image/(png|jpeg);base64,[A-Za-z0-9+/=]+$` as an executable
check. -/
def matchesImageDataUri (s : String) : Bool :=
  b64PayloadAfter "data:image/png;base64,".data s.data ||
  b64PayloadAfter "data:image/jpeg;base64,".data s.data

/-! ## Helper lemmas -/

/-- Every base64 alphabet character is a legal data-URI payload character. -/
theorem b64Char_tail (n : Nat) : isDataUriTailChar (b64Char n) = true := by
  have hb : ∀ m, m < 64 → isDataUriTailChar (b64AlphaChars.getD m 'A') = true := by
    decide
  exact hb (n % 64) (Nat.mod_lt n (by decide))

/-- The padding character is a legal data-URI payload character. -/
theorem pad_tail : isDataUriTailChar '=' = true := by decide

/-- Every character the base64 encoder emits is a legal data-URI payload
character. -/
theorem b64EncodeChunks_all (bs : List Nat) :
    (b64EncodeChunks bs).all isDataUriTailChar = true := by
  match bs with
  | [] => rfl
  | [b1] => simp [b64EncodeChunks, b64Char_tail, pad_tail]
  | [b1, b2] => simp [b64EncodeChunks, b64Char_tail, pad_tail]
  | b1 :: b2 :: b3 :: rest =>
    have ih := b64EncodeChunks_all rest
    simp [b64EncodeChunks, b64Char_tail, ih]

/-- The base64 encoding of a non-empty byte list is non-empty. -/
theorem b64EncodeChunks_ne_nil (bs : List Nat) (h : bs ≠ []) :
    b64EncodeChunks bs ≠ [] := by
  match bs with
  | [] => exact absurd rfl h
  | [b1] => simp [b64EncodeChunks]
  | [b1, b2] => simp [b64EncodeChunks]
  | b1 :: b2 :: b3 :: rest => simp [b64EncodeChunks]

/-- Stripping a list off itself-plus-tail yields the tail. -/
theorem stripHead_append (p r : List Char) : stripHead p (p ++ r) = some r := by
  induction p with
  | nil => simp [stripHead]
  | cons c cs ih => simp [stripHead, ih]

/-- A string consisting of a prefix followed by a non-empty all-payload tail
passes the payload check for that prefix. -/
theorem b64PayloadAfter_append (p r : List Char) (h1 : r ≠ [])
    (h2 : r.all isDataUriTailChar = true) : b64PayloadAfter p (p ++ r) = true := by
  unfold b64PayloadAfter
  rw [stripHead_append]
  simp [h1, h2]

/-- A `data:image/png;base64,` URI built from a non-empty base64 encoding
matches the success-content pattern. -/
theorem matchesImageDataUri_of_png (s : String) (bs : List Nat) (h : bs ≠ [])
    (hd : s.data = "data:image/png;base64,".data ++ b64EncodeChunks bs) :
    matchesImageDataUri s = true := by
  unfold matchesImageDataUri
  rw [hd, b64PayloadAfter_append _ _ (b64EncodeChunks_ne_nil bs h)
    (b64EncodeChunks_all bs)]
  rfl

/-- The data of the concatenation the screenshot code builds for type
`png`. -/
theorem screenshot_data_eq (bs : List Nat) :
    ("data:image/" ++ "png" ++ ";base64," ++ base64EncodeBytes bs).data
      = "data:image/png;base64,".data ++ b64EncodeChunks bs := by
  have h : ("data:image/" ++ "png" ++ ";base64," : String)
      = "data:image/png;base64," := by decide
  calc ("data:image/" ++ "png" ++ ";base64," ++ base64EncodeBytes bs).data
      = ("data:image/" ++ "png" ++ ";base64,").data ++ (base64EncodeBytes bs).data :=
        String.data_append ..
    _ = "data:image/png;base64,".data ++ b64EncodeChunks bs := by rw [h]; rfl

/-- The value a successful default-option screenshot returns matches the
success-content pattern, provided the engine returned at least one byte. -/
theorem takeScreenshot_value_matches (st : BotState) (env : CapEnv) (c : String)
    (hb : env.bytes ≠ [])
    (h : (takeScreenshot st defaultScreenshotOptions env).value = some c) :
    matchesImageDataUri c = true := by
  unfold takeScreenshot at h
  by_cases hp : st.page
  · simp only [hp] at h
    by_cases hf : env.screenshotFails
    · simp [hf] at h
    · simp only [hf] at h
      simp only [Bool.not_true, if_false, if_true, Bool.false_eq_true] at h
      have hc : ("data:image/" ++ screenshotType defaultScreenshotOptions ++
          ";base64," ++ base64EncodeBytes env.bytes) = c := by
        simpa using h
      subst hc
      exact matchesImageDataUri_of_png _ env.bytes hb (screenshot_data_eq env.bytes)
  · simp [hp] at h

/-- One event preserves `browser = page` and moves the page handle exactly
as the spec's open/closed tracking does. -/
theorem botStep_ok (cfg : BotConfig) (st : BotState) (e : BotEvent)
    (h : st.browser = st.page) :
    (botStep cfg st e).browser = (botStep cfg st e).page ∧
    (botStep cfg st e).page = sessionOpenStep st.page e := by
  rcases cfg with ⟨ua, vp, opt, bsr⟩
  rcases st with ⟨br, pg, ic⟩
  simp only at h
  subst h
  cases e with
  | start env =>
    rcases env with ⟨lf, npf, uaf, vwf, icf, ⟨df, bcf⟩⟩
    cases br <;> cases ic <;> cases opt <;> cases lf <;> cases npf <;>
      cases uaf <;> cases vwf <;> cases icf <;> cases df <;> exact ⟨rfl, rfl⟩
  | navigate url env =>
    rcases env with ⟨gf, nif⟩
    cases br <;> cases ic <;> cases gf <;> exact ⟨rfl, rfl⟩
  | capture env =>
    rcases env with ⟨sf, bytes⟩
    cases br <;> cases ic <;> cases sf <;> exact ⟨rfl, rfl⟩
  | stop env =>
    rcases env with ⟨df, bcf⟩
    cases br <;> cases ic <;> cases df <;> exact ⟨rfl, rfl⟩
  | disconnected =>
    cases br <;> cases ic <;> exact ⟨rfl, rfl⟩

/-- Folding events from any state with `browser = page`: the invariant is
preserved and the page handle tracks the spec's open/closed fold. -/
theorem runBot_aux (cfg : BotConfig) (es : List BotEvent) :
    ∀ st : BotState, st.browser = st.page →
      (es.foldl (botStep cfg) st).browser = (es.foldl (botStep cfg) st).page ∧
      (es.foldl (botStep cfg) st).page = es.foldl sessionOpenStep st.page := by
  induction es with
  | nil => exact fun st h => ⟨h, rfl⟩
  | cons e es ih =>
    intro st h
    have hstep := botStep_ok cfg st e h
    have hrec := ih (botStep cfg st e) hstep.1
    simp only [List.foldl_cons]
    exact ⟨hrec.1, by rw [hrec.2, hstep.2]⟩

/-- From a freshly constructed Bot, `startBrowser` with every external call
succeeding, with the router's default options: both handles become live,
the interception flag stays off, nothing thrown. -/
theorem startBrowser_defaultOk (env : StartEnv) (h : startSucceeds env = true) :
    startBrowser (mkBotConfig emptyBotOptions) initialBotState env =
      { state := ⟨true, true, false⟩
        effects := [Effect.launch, Effect.newPage, Effect.onDisconnected,
                    Effect.applyUserAgent DEFAULT_USER_AGENT,
                    Effect.applyViewport 1920 1080,
                    Effect.log "Browser started successfully."]
        err := none } := by
  rcases env with ⟨lf, npf, uaf, vwf, icf, ce⟩
  simp only [startSucceeds, Bool.and_eq_true, Bool.not_eq_true'] at h
  obtain ⟨⟨⟨h1, h2⟩, h3⟩, h4⟩ := h
  subst h1; subst h2; subst h3; subst h4
  rfl

/-! ## Claim theorems -/

/-- Modelled from the spec's wording "network idle": the navigation-wait
policies of the two automation libraries that wait for the network to go
idle. -/
def isNetworkIdlePolicy (s : String) : Bool :=
  s == "networkidle0" || s == "networkidle2" || s == "networkidle"

/-- C1 (code bug): for the malformed-base64 path parameter `"!!!"`, with
every external call succeeding, the route answers `{status:false}` as the
claim says — but the browser started for the request is still running when
the response is sent: the catch block of `app.post` never calls
`closeBrowser`, so both handles stay live and no `browserClose` effect ever
happens. -/
theorem malformedBase64_leaves_browser_running :
    atob "!!!" = none ∧
    (postHandler "!!!" envAllOk).response = Response.failure ∧
    (postHandler "!!!" envAllOk).botState = ⟨true, true, false⟩ ∧
    Effect.browserClose ∉ (postHandler "!!!" envAllOk).effects := by
  decide

/-- C2 (counterexample): the router does not prepend `http://` to a
scheme-less decoded URL.  For the parameter encoding `example.com`, the
navigation issued is to `example.com` itself, and no navigation to
`http://example.com` happens. -/
theorem router_navigates_decoded_url_unchanged :
    atob "ZXhhbXBsZS5jb20=" = some "example.com" ∧
    gotoUrls (postHandler "ZXhhbXBsZS5jb20=" envAllOk).effects = ["example.com"] ∧
    Effect.goto "http://example.com" ∉
      (postHandler "ZXhhbXBsZS5jb20=" envAllOk).effects := by
  decide

/-- C4: with interception installed, a request is aborted exactly when its
resource kind is one of the enabled blocked kinds (image/stylesheet/font
under the respective flags), and continues unmodified exactly otherwise. -/
theorem interception_aborts_exactly_blocked_kinds :
    ∀ (bs : BlockSettings) (rt : ResourceType),
      (handleRequestInterception bs rt = InterceptAction.abort ↔
        rt ∈ enabledBlockedKinds bs) ∧
      (handleRequestInterception bs rt = InterceptAction.cont ↔
        rt ∉ enabledBlockedKinds bs) := by
  decide

set_option synthInstance.maxSize 2000 in
set_option maxHeartbeats 1000000 in
/-- C6: `closeBrowser` never throws; from any state satisfying the session
invariant (a live page implies a live browser) it clears every handle and
the interception flag; it uninstalls an active filter and closes a live
browser; a close error is logged and swallowed; and a second consecutive
call does no work and leaves the same terminal state. -/
theorem closeBrowser_idempotent_never_throws :
    ∀ (st : BotState) (env env2 : CloseEnv),
      (closeBrowser st env).err = none ∧
      ((st.page = true → st.browser = true) →
        (closeBrowser st env).state = initialBotState) ∧
      closeBrowser (closeBrowser st env).state env2 =
        { state := (closeBrowser st env).state, effects := [], err := none } ∧
      (st.interception = true → st.page = true →
        Effect.setRequestInterception false ∈ (closeBrowser st env).effects) ∧
      (st.browser = true → Effect.browserClose ∈ (closeBrowser st env).effects) ∧
      (st.browser = true → env.browserCloseFails = true →
        Effect.logError "Error closing browser" ∈ (closeBrowser st env).effects) := by
  decide

/-- Witness for C6 at a fully started session whose `browser.close`
throws. -/
theorem closeBrowser_idempotent_never_throws_witness :
    (closeBrowser ⟨true, true, true⟩ ⟨false, true⟩).state = initialBotState ∧
    Effect.logError "Error closing browser" ∈
      (closeBrowser ⟨true, true, true⟩ ⟨false, true⟩).effects ∧
    closeBrowser (closeBrowser ⟨true, true, true⟩ ⟨false, true⟩).state ⟨true, true⟩ =
      { state := (closeBrowser ⟨true, true, true⟩ ⟨false, true⟩).state
        effects := [], err := none } :=
  ⟨(closeBrowser_idempotent_never_throws ⟨true, true, true⟩ ⟨false, true⟩
      ⟨true, true⟩).2.1 (fun _ => rfl),
   (closeBrowser_idempotent_never_throws ⟨true, true, true⟩ ⟨false, true⟩
      ⟨true, true⟩).2.2.2.2.2 rfl rfl,
   (closeBrowser_idempotent_never_throws ⟨true, true, true⟩ ⟨false, true⟩
      ⟨true, true⟩).2.2.1⟩

/-- C7: `startBrowser` on a session whose browser handle is already
non-null only logs a warning, throws nothing, and leaves the browser
handle, page handle and interception flag untouched. -/
theorem startBrowser_noop_when_already_started :
    ∀ (cfg : BotConfig) (st : BotState) (env : StartEnv), st.browser = true →
      startBrowser cfg st env =
        { state := st, effects := [Effect.warn "Browser already started."]
          err := none } := by
  intro cfg st env h
  simp [startBrowser, h]

/-- Witness for C7 at a started session. -/
theorem startBrowser_noop_when_already_started_witness :
    startBrowser (mkBotConfig emptyBotOptions) ⟨true, true, false⟩
        ⟨false, false, false, false, false, ⟨false, false⟩⟩ =
      { state := ⟨true, true, false⟩
        effects := [Effect.warn "Browser already started."], err := none } :=
  startBrowser_noop_when_already_started _ _ _ rfl

/-- C9: a Bot constructed with no options has the documented defaults:
the Googlebot crawler user agent, a 1920×1080 viewport, a 30000 ms
navigation timeout, a network-idle wait policy (in both library variants),
`optimizeLoad` off, and — were `optimizeLoad` turned on — blocking of
images only. -/
theorem bot_default_configuration :
    (mkBotConfig emptyBotOptions).userAgent =
      "Mozilla/5.0 (compatible; Googlebot/2.1; +http://www.google.com/bot.html)" ∧
    (mkBotConfig emptyBotOptions).viewport.width = 1920 ∧
    (mkBotConfig emptyBotOptions).viewport.height = 1080 ∧
    (mkGotoOptions defaultSetPageOptions).timeout = 30000 ∧
    (mkGotoOptions defaultSetPageOptions).waitUntil = DEFAULT_NAVIGATION_WAIT ∧
    isNetworkIdlePolicy DEFAULT_NAVIGATION_WAIT = true ∧
    isNetworkIdlePolicy DEFAULT_NAVIGATION_WAIT_PLAYWRIGHT = true ∧
    (mkBotConfig emptyBotOptions).optimizeLoad = false ∧
    (mkBotConfig emptyBotOptions).blockResources =
      ⟨some true, some false, some false⟩ ∧
    (∀ rt : ResourceType,
      handleRequestInterception
          (mkBotConfig { emptyBotOptions with optimizeLoad := some true }).blockResources
          rt = InterceptAction.abort ↔ rt = ResourceType.image) := by
  decide

/-- C10: the constructor spreads the caller's `blockResources` object over
the default-filled fields, so a key explicitly set to `undefined` ends up
`undefined` in the merged options — falsy, hence that kind is not blocked —
overriding the documented default (`images` defaults to `true` when the
object is absent). -/
theorem blockResources_spread_undefined_override :
    ∀ i : BlockResourcesInput,
      (i.images = JSField.undef →
        (mergeBlockResources (some i)).images = none ∧
        handleRequestInterception (mergeBlockResources (some i))
          ResourceType.image = InterceptAction.cont) ∧
      (i.css = JSField.undef →
        (mergeBlockResources (some i)).css = none ∧
        handleRequestInterception (mergeBlockResources (some i))
          ResourceType.stylesheet = InterceptAction.cont) ∧
      (i.fonts = JSField.undef →
        (mergeBlockResources (some i)).fonts = none ∧
        handleRequestInterception (mergeBlockResources (some i))
          ResourceType.font = InterceptAction.cont) ∧
      (mergeBlockResources none).images = some true := by
  decide

/-- Witness for C10 at the caller argument `{images: undefined}`. -/
theorem blockResources_spread_undefined_override_witness :
    (mergeBlockResources (some ⟨JSField.undef, JSField.absent, JSField.absent⟩)).images
      = none ∧
    handleRequestInterception
        (mergeBlockResources (some ⟨JSField.undef, JSField.absent, JSField.absent⟩))
        ResourceType.image = InterceptAction.cont :=
  (blockResources_spread_undefined_override
    ⟨JSField.undef, JSField.absent, JSField.absent⟩).1 rfl

/-- C3: along every event trace of a freshly constructed Bot, the page
handle is non-null exactly while the spec's tracking says the session is
open — i.e. after a successful start with no stop or disconnect since —
and both `setPage` and `takeScreenshot` fail immediately with an error,
with no navigation or capture effect and no state change, whenever the
page handle is null. -/
theorem pageHandle_open_iff_between_start_and_stop :
    (∀ (cfg : BotConfig) (es : List BotEvent),
      (runBot cfg es).page = sessionOpenSpec es) ∧
    (∀ (st : BotState) (url : String) (o : SetPageOptions) (env : NavEnv),
      st.page = false →
      setPage st url o env =
        { state := st, effects := []
          err := some "Browser not started or page not available." }) ∧
    (∀ (st : BotState) (o : ScreenshotOptionsIn) (env : CapEnv),
      st.page = false →
      takeScreenshot st o env =
        { state := st, effects := []
          err := some "Browser not started or page not available." }) := by
  refine ⟨fun cfg es => (runBot_aux cfg es initialBotState rfl).2, ?_, ?_⟩
  · intro st url o env h
    simp [setPage, h]
  · intro st o env h
    simp [takeScreenshot, h]

/-- Witness for C3: a successful start followed by a stop, and a navigate
attempt on a closed session. -/
theorem pageHandle_open_iff_between_start_and_stop_witness :
    (runBot (mkBotConfig emptyBotOptions)
        [BotEvent.start ⟨false, false, false, false, false, ⟨false, false⟩⟩,
         BotEvent.stop ⟨false, false⟩]).page =
      sessionOpenSpec
        [BotEvent.start ⟨false, false, false, false, false, ⟨false, false⟩⟩,
         BotEvent.stop ⟨false, false⟩] ∧
    setPage initialBotState "http://example.com" defaultSetPageOptions
        ⟨false, false⟩ =
      { state := initialBotState, effects := []
        err := some "Browser not started or page not available." } :=
  ⟨pageHandle_open_iff_between_start_and_stop.1 _ _,
   pageHandle_open_iff_between_start_and_stop.2.1 _ _ _ _ rfl⟩

/-- C8: when `startBrowser` from a fresh session fails at launch, page
creation, or applying settings, it throws, the session is back in the Idle
state (no handles, interception off), and — whenever a process had been
spawned — the partially-created browser was closed. -/
theorem startBrowser_failure_restores_idle :
    ∀ (cfg : BotConfig) (env : StartEnv), startSucceeds env = false →
      (startBrowser cfg initialBotState env).err.isSome = true ∧
      (startBrowser cfg initialBotState env).state = initialBotState ∧
      (env.launchFails = false →
        Effect.browserClose ∈ (startBrowser cfg initialBotState env).effects) := by
  intro cfg env h
  rcases env with ⟨lf, npf, uaf, vwf, icf, ⟨df, bcf⟩⟩
  cases lf <;> cases npf <;> cases uaf <;> cases vwf <;> cases df <;> cases bcf <;>
    simp_all [startBrowser, closeBrowser, disableResourceBlocking, startSucceeds,
      initialBotState]

/-- Witness for C8: page creation fails after a successful launch. -/
theorem startBrowser_failure_restores_idle_witness :
    (startBrowser (mkBotConfig emptyBotOptions) initialBotState
        ⟨false, true, false, false, false, ⟨false, false⟩⟩).err.isSome = true ∧
    (startBrowser (mkBotConfig emptyBotOptions) initialBotState
        ⟨false, true, false, false, false, ⟨false, false⟩⟩).state = initialBotState ∧
    Effect.browserClose ∈ (startBrowser (mkBotConfig emptyBotOptions) initialBotState
        ⟨false, true, false, false, false, ⟨false, false⟩⟩).effects := by
  have h := startBrowser_failure_restores_idle (mkBotConfig emptyBotOptions)
    ⟨false, true, false, false, false, ⟨false, false⟩⟩ (by decide)
  exact ⟨h.1, h.2.1, h.2.2 rfl⟩

/-- C5: every successful response carries a content string matching
`^data:image/(png|jpeg);base64,[A-Za-z0-9+/=]+$` (the router's default
options produce `png`), provided the engine returned at least one image
byte; a failed request's body is the bare `Response.failure`
(`{status:false}`), which by construction has no content field. -/
theorem success_content_matches_data_uri :
    ∀ (param : String) (env : RouterEnv) (c : String),
      env.shot.bytes ≠ [] →
      (postHandler param env).response = Response.success c →
      matchesImageDataUri c = true := by
  intro param env c hb h
  simp only [postHandler] at h
  iterate 6 (all_goals try split at h)
  all_goals simp at h
  subst h
  exact takeScreenshot_value_matches _ env.shot _ hb (by assumption)

/-- Witness for C5: a concrete valid request whose screenshot bytes are
`[1, 2, 3]` produces content that passes the pattern. -/
theorem success_content_matches_data_uri_witness :
    matchesImageDataUri "data:image/png;base64,AQID" = true :=
  success_content_matches_data_uri "ZXhhbXBsZS5jb20=" envAllOk
    "data:image/png;base64,AQID" (by decide) (by decide)

/-- C2 (amended): the scheme check and `http://` prepending happen in the
client page's `getScreenshot` before base64-encoding — not in the router —
so the client-side processing of `example.com` coincides with that of
`http://example.com`, while the router itself navigates the decoded string
unchanged. -/
theorem scheme_prepending_happens_client_side :
    (∀ u : String, strStartsWith u "http://" = false →
      strStartsWith u "https://" = false → clientFetchUrl u = "http://" ++ u) ∧
    clientFetchUrl "example.com" = "http://example.com" ∧
    (∀ env : RouterEnv,
      clientCapture "example.com" env = clientCapture "http://example.com" env) ∧
    (∀ (param d : String) (env : RouterEnv),
      param ≠ "" → atob param = some d → startSucceeds env.start = true →
      gotoUrls (postHandler param env).effects = [d]) := by
  refine ⟨?_, by decide, ?_, ?_⟩
  · intro u h1 h2
    simp [clientFetchUrl, h1, h2]
  · intro env
    have h2 : clientFetchUrl "example.com" = clientFetchUrl "http://example.com" := by
      decide
    unfold clientCapture
    rw [h2]
  · intro param d env hne hdec hs
    obtain ⟨senv, nenv, shenv, clenv⟩ := env
    obtain ⟨gf, nif⟩ := nenv
    obtain ⟨sf, bytes⟩ := shenv
    obtain ⟨df, bcf⟩ := clenv
    cases gf <;> cases sf <;> cases df <;> cases bcf <;>
      simp [postHandler, if_neg hne, startBrowser_defaultOk senv hs, hdec,
        setPage, takeScreenshot, closeBrowser, disableResourceBlocking,
        defaultSetPageOptions, defaultScreenshotOptions, gotoUrls,
        List.filterMap_append]

/-- Witness for C2 (amended) at the input `example.com` and its encoded
request. -/
theorem scheme_prepending_happens_client_side_witness :
    clientFetchUrl "example.com" = "http://" ++ "example.com" ∧
    gotoUrls (postHandler "ZXhhbXBsZS5jb20=" envAllOk).effects = ["example.com"] :=
  ⟨scheme_prepending_happens_client_side.1 "example.com" (by decide) (by decide),
   scheme_prepending_happens_client_side.2.2.2 "ZXhhbXBsZS5jb20=" "example.com"
     envAllOk (by decide) (by decide) (by decide)⟩
